import Mathlib

/-!
Verification model of `src/connection-loop.ts` (the adaptive connection loop:
debounce, admission control, exponential backoff on failure, median-latency
pacing on success).

Modelling conventions:
* JS numbers that hold millisecond durations, delays and timestamps are
  non-negative integers in every reachable state, so they are modelled as `Nat`.
  (`x | 0` is JS `ToInt32`; for the millisecond-scale values the loop handles,
  all far below `2 ^ 31`, it is truncation toward zero, i.e. `Nat` floor
  division after a division.)
* The in-place mutation of the `sendRecords` array (its `shift()` call) is
  modelled by returning the updated list alongside the computed delay.
* `values.sort()` is JS `Array.prototype.sort` with the DEFAULT comparator,
  which compares the decimal string forms of the numbers (lexicographically by
  UTF-16 code units).  This is modelled exactly by `jsSort` below.
-/

/-- Line 12: `type SendRecord = {duration: number; ok: boolean}`. -/
structure SendRecord where
  duration : Nat
  ok : Bool
deriving DecidableEq, Repr

/-- Line 5: `const DEBOUNCE_DELAY = 10`. -/
def DEBOUNCE_DELAY : Nat := 10

/-- Line 7: `const MIN_DELAY = 30`. -/
def MIN_DELAY : Nat := 30

/-- Line 8: `const MAX_DELAY = 60_000`. -/
def MAX_DELAY : Nat := 60000

/-- Line 10: `const MAX_CONNECTIONS = 3`. -/
def MAX_CONNECTIONS : Nat := 3

/-- Line 199: `const CONNECTION_MEMORY_COUNT = 9`. -/
def CONNECTION_MEMORY_COUNT : Nat := 9

/-- Lexicographic order on strings of characters, by code point; this is how
the default JS sort comparator orders the string forms of array elements. -/
def lexLe : List Char → List Char → Bool
  | [], _ => true
  | _ :: _, [] => false
  | a :: as, b :: bs => if a = b then lexLe as bs else decide (a < b)

/-- The default JS `Array.prototype.sort` comparator applied to two numbers:
compare their decimal string representations lexicographically. -/
def jsNumLe (a b : Nat) : Bool :=
  lexLe (Nat.repr a).toList (Nat.repr b).toList

/-- Insert an element into a list sorted by `jsNumLe`. -/
def insertLe (x : Nat) : List Nat → List Nat
  | [] => [x]
  | y :: ys => if jsNumLe x y then x :: y :: ys else y :: insertLe x ys

/-- Line 242: `values.sort()` — sorts NUMBERS by their STRING representation
(default comparator).  Any sort agrees with insertion sort here because
`jsNumLe` is a total order whose ties are exactly equal numbers. -/
def jsSort : List Nat → List Nat
  | [] => []
  | x :: xs => insertLe x (jsSort xs)

/-- Lines 241-249, scaled by 2 to stay in `Nat`: `2 * median(values)`.
The source computes `half = length >> 1` (= `length / 2`), returns
`values[half]` for odd length and the average of the two middle elements for
even length; the average can end in .5, so we return twice the median and the
caller divides by `2 * maxConnections`, which has the same floor. -/
def medianTimes2 (values : List Nat) : Nat :=
  let sorted := jsSort values
  if sorted.length % 2 = 1 then 2 * sorted.getD (sorted.length / 2) 0
  else sorted.getD (sorted.length / 2 - 1) 0 + sorted.getD (sorted.length / 2) 0

/-- Lines 251-253: `sendRecords.length > 0 && !sendRecords[length - 1].ok`. -/
def didLastSendRequestFail (sendRecords : List SendRecord) : Bool :=
  decide (0 < sendRecords.length) &&
    !((sendRecords.getLast?).getD ⟨0, true⟩).ok

/-- Lines 255-261: more than one record, second-to-last not ok, last ok. -/
def recovered (sendRecords : List SendRecord) : Bool :=
  decide (1 < sendRecords.length) &&
    !((sendRecords.dropLast.getLast?).getD ⟨0, true⟩).ok &&
    ((sendRecords.getLast?).getD ⟨0, true⟩).ok

/-- Lines 201-239.  Control flow follows the source exactly:
empty history returns `delay` unchanged; a failed last record returns
`Math.min(MAX_DELAY, delay * 2)` (history untouched); a single ok record
returns `(duration / maxConnections) | 0`; otherwise `previous` is read
BEFORE pruning, one `shift()` prunes the oldest entry when the length exceeds
`CONNECTION_MEMORY_COUNT`, a recovery returns `MIN_DELAY`, and the default
case returns `(median(ok durations of the pruned list) / maxConnections) | 0`.
The `getD ⟨0, true⟩` defaults are never reached: the guards ensure the
corresponding elements exist, exactly as the source's indexing assumes. -/
def computeDelayAndUpdateDurations (delay maxConnections : Nat)
    (sendRecords : List SendRecord) : Nat × List SendRecord :=
  if sendRecords.length = 0 then (delay, sendRecords)
  else
    let lastRec := (sendRecords.getLast?).getD ⟨0, true⟩
    if lastRec.ok = false then
      (min MAX_DELAY (delay * 2), sendRecords)
    else if sendRecords.length = 1 then
      (lastRec.duration / maxConnections, sendRecords)
    else
      let previous := (sendRecords.dropLast.getLast?).getD ⟨0, true⟩
      let pruned :=
        if CONNECTION_MEMORY_COUNT < sendRecords.length then sendRecords.tail
        else sendRecords
      if lastRec.ok && !previous.ok then
        (MIN_DELAY, pruned)
      else
        (medianTimes2 ((pruned.filter fun r => r.ok).map fun r => r.duration) /
            (2 * maxConnections),
          pruned)

/-- Modelled from the spec: the "standard numerical median" the spec's delay
formula refers to ("delay = floor(median(durations of ok records) /
maxConnections)"), scaled by 2 to stay in `Nat` exactly as `medianTimes2`.
It differs from the source's `median` only in sorting numerically. -/
def insertLeNat (x : Nat) : List Nat → List Nat
  | [] => [x]
  | y :: ys => if x ≤ y then x :: y :: ys else y :: insertLeNat x ys

/-- Numeric-order insertion sort, used only by `numericalMedianTimes2`. -/
def sortNat : List Nat → List Nat
  | [] => []
  | x :: xs => insertLeNat x (sortNat xs)

/-- Modelled from the spec: twice the standard numerical median. -/
def numericalMedianTimes2 (values : List Nat) : Nat :=
  let sorted := sortNat values
  if sorted.length % 2 = 1 then 2 * sorted.getD (sorted.length / 2) 0
  else sorted.getD (sorted.length / 2 - 1) 0 + sorted.getD (sorted.length / 2) 0

/-!
State machine for the `run` loop (lines 70-196).  JS is single-threaded and
cooperative: the loop runs synchronously between `await` points, so it is
modelled as a transition function fired at each wake-up of a suspension point.
One-shot resolvers are modelled by booleans ("currently resolved"); the
delivery of a wake-up (timer expiry, promise resolution, watchdog) is an
environment event, so wake events carry the current `Date.now()` value.
-/

/-- Mutable state of a `ConnectionLoop` object together with the locals of
`run` (lines 51-77): `_closed`, `_pendingResolver` (resolved?), the recover
resolver (resolved?), `_waitingConnectionResolve` (registered?),
`sendRecords`, `delay`, `lastSendTime`, `counter`. -/
structure LoopState where
  closed : Bool
  pendingResolved : Bool
  recoverResolved : Bool
  waitingConnection : Bool
  sendRecords : List SendRecord
  delay : Nat
  lastSendTime : Nat
  counter : Nat
deriving DecidableEq, Repr

/-- Lines 61-63: `close()` sets `this._closed = true` and does nothing else. -/
def closeLoop (s : LoopState) : LoopState :=
  { s with closed := true }

/-- Lines 65-68: `send()` resolves the pending resolver. -/
def sendSignal (s : LoopState) : LoopState :=
  { s with pendingResolved := true }

/-- Lines 149-177: the tail of the async dispatch block, run when
`invokeSend` settles with the observed record `rec` (`{duration, ok}`; a
thrown send is `ok = false`).  If the loop is closed the outcome is discarded
(lines 161-164).  Otherwise the record is pushed, a recovery resolves the
recover resolver and immediately re-arms a fresh unresolved one (so the
"currently resolved" flag is unchanged; the waker of a pacing sleep in
progress is delivered as a wake event), the counter is decremented,
`_connectionAvailable()` releases any registered connection waiter, and a
failed send resolves the pending resolver (retry). -/
def completeSend (s : LoopState) (rec : SendRecord) : LoopState :=
  if s.closed then s
  else
    let records := s.sendRecords ++ [rec]
    { s with
      sendRecords := records
      counter := s.counter - 1
      waitingConnection := false
      pendingResolved := s.pendingResolved || !rec.ok }

/-- The suspension points of `run`: the pending race (line 102), the debounce
sleep (line 106), the available-connection wait (line 115), the pacing sleep
race (lines 140-143), and loop exit. -/
inductive PC where
  | pendingWait
  | debounceWait
  | connWait
  | paceWait
  | exited
deriving DecidableEq, Repr

/-- Result of running one synchronous segment of `run`: the next suspension
point, the new state, whether this segment dispatched a request (lines
148-155 run synchronously up to `await delegate.invokeSend()`), whether it
executed the pacing block (lines 122-146), and the duration of the plain
sleep being entered, when the next wait is one. -/
structure StepResult where
  pc : PC
  state : LoopState
  dispatched : Bool
  paced : Bool
  nextSleep : Option Nat
deriving DecidableEq, Repr

/-- Loop exit: `break` / the `while` guard failing. -/
def exitRes (s : LoopState) : StepResult :=
  { pc := .exited, state := s, dispatched := false, paced := false,
    nextSleep := none }

/-- Lines 148-155: `counter++`, the async block starts and synchronously sets
`lastSendTime = Date.now()` and calls `invokeSend`; the loop itself returns
to the top and suspends at the pending race. -/
def dispatchNow (s : LoopState) (now : Nat) : StepResult :=
  { pc := .pendingWait,
    state := { s with counter := s.counter + 1, lastSendTime := now },
    dispatched := true, paced := false, nextSleep := none }

/-- Lines 120-148: the pacing block guarded by
`counter > 0 || didLastSendRequestFail(sendRecords)`, followed by dispatch.
When the guard holds, the delay is recomputed (updating `sendRecords`), and
if `delay > Date.now() - lastSendTime` the loop suspends at the pacing race
for the difference; otherwise it dispatches at once.  `Date.now() -
lastSendTime` is `Nat` subtraction: `Date.now()` is never below the
`lastSendTime` it previously recorded. -/
def paceOrDispatch (maxConnections : Nat) (s : LoopState) (now : Nat) :
    StepResult :=
  if 0 < s.counter || didLastSendRequestFail s.sendRecords then
    let r := computeDelayAndUpdateDurations s.delay maxConnections s.sendRecords
    let s1 := { s with delay := r.1, sendRecords := r.2 }
    let timeSinceLastSend := now - s1.lastSendTime
    if timeSinceLastSend < r.1 then
      { pc := .paceWait, state := s1, dispatched := false, paced := true,
        nextSleep := some (r.1 - timeSinceLastSend) }
    else
      { dispatchNow s1 now with paced := true }
  else
    dispatchNow s now

/-- One synchronous segment of `run`, fired when the suspension point `pc`
wakes at time `now`.  Every segment begins with the source's closed check
(lines 103, 107, 116, 144; `pendingWait` also covers the `while` guard of
line 89, which reads the same flag).  Waking from the pending race enters the
debounce sleep (line 106).  Waking from debounce re-arms the pending resolver
(line 111), then either registers as a connection waiter when
`counter >= maxConnections` (lines 113-118) or proceeds to the pacing block.
Waking from the connection wait proceeds to the pacing block; waking from the
pacing race dispatches (lines 148-155). -/
def wake (debounceDelay maxConnections : Nat) (pc : PC) (s : LoopState)
    (now : Nat) : StepResult :=
  match pc with
  | .exited => exitRes s
  | .pendingWait =>
    if s.closed then exitRes s
    else
      { pc := .debounceWait, state := s, dispatched := false, paced := false,
        nextSleep := some debounceDelay }
  | .debounceWait =>
    if s.closed then exitRes s
    else
      let s1 := { s with pendingResolved := false }
      if maxConnections ≤ s1.counter then
        { pc := .connWait, state := { s1 with waitingConnection := true },
          dispatched := false, paced := false, nextSleep := none }
      else
        paceOrDispatch maxConnections s1 now
  | .connWait =>
    if s.closed then exitRes s
    else paceOrDispatch maxConnections s now
  | .paceWait =>
    if s.closed then exitRes s
    else dispatchNow s now

/-- Environment events acting on a loop: a wake-up of the loop's current
suspension point at a given time, a `send()` call, the settlement of an
in-flight `invokeSend` with its observed record, and a `close()` call. -/
inductive Ev where
  | wakeLoop (now : Nat)
  | sendCall
  | complete (rec : SendRecord)
  | closeCall
deriving DecidableEq, Repr

/-- A loop at a suspension point. -/
structure World where
  pc : PC
  st : LoopState
deriving DecidableEq, Repr

/-- Apply one event; the boolean reports whether a request was dispatched. -/
def worldStep (debounceDelay maxConnections : Nat) (w : World) (e : Ev) :
    World × Bool :=
  match e with
  | .wakeLoop now =>
    let r := wake debounceDelay maxConnections w.pc w.st now
    (⟨r.pc, r.state⟩, r.dispatched)
  | .sendCall => (⟨w.pc, sendSignal w.st⟩, false)
  | .complete rec => (⟨w.pc, completeSend w.st rec⟩, false)
  | .closeCall => (⟨w.pc, closeLoop w.st⟩, false)

/-- Number of dispatches performed along a sequence of events. -/
def dispatchCount (debounceDelay maxConnections : Nat) (w : World) :
    List Ev → Nat
  | [] => 0
  | e :: es =>
    let r := worldStep debounceDelay maxConnections w e
    (if r.2 then 1 else 0) + dispatchCount debounceDelay maxConnections r.1 es

/-- Evolution of the `delay` variable across consecutive failed outcomes:
each failure maps `delay` to `Math.min(MAX_DELAY, delay * 2)` (line 214),
iterated `k` times. -/
def delayAfterFailures (d k : Nat) : Nat :=
  (fun x => min MAX_DELAY (x * 2))^[k] d

/-!
Helper lemmas shared by the claim theorems.
-/

/-- Unfolding of `didLastSendRequestFail` into its two conjuncts. -/
lemma didLastSendRequestFail_iff (recs : List SendRecord) :
    didLastSendRequestFail recs = true ↔
      0 < recs.length ∧ ((recs.getLast?).getD ⟨0, true⟩).ok = false := by
  simp [didLastSendRequestFail]

/-- Unfolding of `recovered` into its three conjuncts. -/
lemma recovered_iff (recs : List SendRecord) :
    recovered recs = true ↔
      1 < recs.length ∧ ((recs.dropLast.getLast?).getD ⟨0, true⟩).ok = false ∧
        ((recs.getLast?).getD ⟨0, true⟩).ok = true := by
  simp [recovered, and_assoc]

/-- On a history whose last record failed, the computed delay is the capped
doubling and the history is untouched. -/
lemma computeDelay_of_last_failed (d m : Nat) (recs : List SendRecord)
    (h : didLastSendRequestFail recs = true) :
    computeDelayAndUpdateDurations d m recs = (min MAX_DELAY (d * 2), recs) := by
  obtain ⟨h1, h2⟩ := (didLastSendRequestFail_iff recs).mp h
  have h0 : recs.length ≠ 0 := by omega
  simp [computeDelayAndUpdateDurations, h0, h2]

/-- `delayAfterFailures` unfolds one failure at a time. -/
lemma delayAfterFailures_succ (d k : Nat) :
    delayAfterFailures d (k + 1) =
      min MAX_DELAY (delayAfterFailures d k * 2) := by
  simp [delayAfterFailures, Function.iterate_succ_apply']

/-- One failure is exactly the source's capped doubling of the delay. -/
lemma computeDelay_eq_delayAfterFailures_one (d m : Nat)
    (recs : List SendRecord) (h : didLastSendRequestFail recs = true) :
    (computeDelayAndUpdateDurations d m recs).1 = delayAfterFailures d 1 := by
  rw [computeDelay_of_last_failed d m recs h]
  simp [delayAfterFailures]

/-- Closed form: `k ≥ 1` consecutive failures turn delay `d` into
`min MAX_DELAY (d * 2 ^ k)`. -/
lemma delayAfterFailures_eq (d k : Nat) (hk : 1 ≤ k) :
    delayAfterFailures d k = min MAX_DELAY (d * 2 ^ k) := by
  induction k with
  | zero => omega
  | succ n ih =>
    by_cases hn : n = 0
    · subst hn
      simp [delayAfterFailures, Function.iterate_one]
    · rw [delayAfterFailures_succ, ih (by omega)]
      have hp : d * 2 ^ (n + 1) = d * 2 ^ n * 2 := by ring
      rw [hp]
      generalize d * 2 ^ n = x
      simp only [MAX_DELAY]
      omega

/-- Closed steps preserve the closed flag and never dispatch. -/
lemma worldStep_closed (db m : Nat) (w : World) (e : Ev)
    (h : w.st.closed = true) :
    ((worldStep db m w e).1).st.closed = true ∧
      (worldStep db m w e).2 = false := by
  obtain ⟨pc, st⟩ := w
  cases e with
  | wakeLoop now => cases pc <;> simp_all [worldStep, wake, exitRes]
  | sendCall => simp_all [worldStep, sendSignal]
  | complete rec => simp_all [worldStep, completeSend]
  | closeCall => simp_all [worldStep, closeLoop]

/-!
Claim theorems.
-/

/-- C1: the claim states that on a history of more than one record ending in
an ok record (not a recovery), the delay equals
`floor(numericalMedian(ok durations) / maxConnections)`.  The code disagrees:
`median` sorts with the default JS comparator, which orders numbers by their
decimal strings, so on durations `[9, 10, 100]` (all ok, no recovery) the
code computes `floor(100 / 3) = 33` — the lexicographic "median" is `100` —
while the numerical median gives `floor(10 / 3) = 3`.  The function is named
`median` and the intent is plainly the numerical median, so this is a slip in
the code (a missing numeric comparator), not in the claim. -/
theorem c1_code_bug :
    (computeDelayAndUpdateDurations 30 3
        [⟨9, true⟩, ⟨10, true⟩, ⟨100, true⟩]).1 = 33 ∧
    numericalMedianTimes2 [9, 10, 100] / (2 * 3) = 3 ∧
    jsSort [9, 10, 100] = [10, 100, 9] ∧ (33 : Nat) ≠ 3 := by decide

/-- C5: on every history whose last record is a failure,
`computeDelayAndUpdateDurations` returns `min(MAX_DELAY, delay * 2)`:
the current delay doubled and capped at 60 000 ms. -/
theorem c5_last_failed_doubles (d m : Nat) (recs : List SendRecord)
    (h : didLastSendRequestFail recs = true) :
    (computeDelayAndUpdateDurations d m recs).1 = min MAX_DELAY (d * 2) := by
  rw [computeDelay_of_last_failed d m recs h]

/-- Witness for C5 at `delay = 30` and the one-failure history. -/
theorem c5_witness :
    (computeDelayAndUpdateDurations 30 3 [⟨5, false⟩]).1 =
      min MAX_DELAY (30 * 2) :=
  c5_last_failed_doubles 30 3 [⟨5, false⟩] (by decide)

/-- C6: on every history with more than one record whose last record is ok
and whose second-to-last record is not ok (`recovered`), the computed delay
is reset to `MIN_DELAY = 30`. -/
theorem c6_recovered_resets (d m : Nat) (recs : List SendRecord)
    (h : recovered recs = true) :
    (computeDelayAndUpdateDurations d m recs).1 = MIN_DELAY := by
  obtain ⟨h1, h2, h3⟩ := (recovered_iff recs).mp h
  have h0 : recs.length ≠ 0 := by omega
  have hne1 : recs.length ≠ 1 := by omega
  simp [computeDelayAndUpdateDurations, h0, hne1, h2, h3]

/-- Witness for C6 at the failure-then-success history. -/
theorem c6_witness :
    (computeDelayAndUpdateDurations 99 3 [⟨5, false⟩, ⟨5, true⟩]).1 =
      MIN_DELAY :=
  c6_recovered_resets 99 3 [⟨5, false⟩, ⟨5, true⟩] (by decide)

/-- C9: a call of `computeDelayAndUpdateDurations` whose history ends in a
failure, or holds at most one record, leaves the record list completely
unchanged; and in every case the call either leaves the list unchanged or
removes exactly the single oldest entry (the head — records are appended at
the tail). -/
theorem c9_frame (d m : Nat) (recs : List SendRecord) :
    ((didLastSendRequestFail recs = true ∨ recs.length ≤ 1) →
      (computeDelayAndUpdateDurations d m recs).2 = recs) ∧
    ((computeDelayAndUpdateDurations d m recs).2 = recs ∨
      (computeDelayAndUpdateDurations d m recs).2 = recs.tail) := by
  constructor
  · intro h
    rcases h with h | h
    · rw [computeDelay_of_last_failed d m recs h]
    · rcases Nat.lt_or_ge recs.length 1 with h1 | h1
      · have h0 : recs.length = 0 := by omega
        simp [computeDelayAndUpdateDurations, h0]
      · have h1' : recs.length = 1 := by omega
        simp only [computeDelayAndUpdateDurations]
        split_ifs <;> rfl
  · simp only [computeDelayAndUpdateDurations]
    split_ifs <;> simp

/-- Witness for C9: the failure history is left untouched. -/
theorem c9_witness :
    (computeDelayAndUpdateDurations 30 3 [⟨5, false⟩]).2 = [⟨5, false⟩] :=
  (c9_frame 30 3 [⟨5, false⟩]).1 (Or.inl (by decide))

/-- C3 counterexample: the claim says the record list never holds more than 9
entries once pruning has run.  Eleven serial fast successes are recorded with
`computeDelayAndUpdateDurations` never called (the pacing guard
`counter > 0 || didLastSendRequestFail` is false throughout), so the list
reaches length 11; the next call prunes — and leaves 10 > 9 entries. -/
theorem c3_counterexample :
    ((computeDelayAndUpdateDurations 30 3
        (List.replicate 11 (⟨5, true⟩ : SendRecord))).2).length = 10 ∧
    CONNECTION_MEMORY_COUNT < 10 := by decide

/-- C3 amended: pruning happens only inside `computeDelayAndUpdateDurations`,
only when the history has more than one record and ends in an ok record, and
removes exactly one (the oldest) entry.  Precisely: whenever the history
exceeds `CONNECTION_MEMORY_COUNT = 9` entries, a call leaves the length
unchanged if the last record failed and removes exactly one entry otherwise;
the list is therefore not bounded by 9. -/
theorem c3_amended (d m : Nat) (recs : List SendRecord)
    (h : CONNECTION_MEMORY_COUNT < recs.length) :
    ((computeDelayAndUpdateDurations d m recs).2).length =
      recs.length -
        (if didLastSendRequestFail recs = true then 0 else 1) := by
  have h9 : (9 : Nat) < recs.length := h
  have h0 : recs.length ≠ 0 := by omega
  have hne1 : recs.length ≠ 1 := by omega
  by_cases hok : ((recs.getLast?).getD ⟨0, true⟩).ok
  · have hd : didLastSendRequestFail recs = false := by
      simp [didLastSendRequestFail, hok]
    rw [hd]
    simp [computeDelayAndUpdateDurations, h0, hok, hne1, h]
    split_ifs <;> simp
  · have hok' : ((recs.getLast?).getD ⟨0, true⟩).ok = false := by
      simpa using hok
    have hd : didLastSendRequestFail recs = true := by
      simp [didLastSendRequestFail, hok']
      omega
    rw [computeDelay_of_last_failed d m recs hd, hd]
    simp

/-- Witness for C3's amended theorem: a history of 10 successes followed by a
failure (11 > 9 entries) is not pruned at all by the failed-path call. -/
theorem c3_amended_witness :
    ((computeDelayAndUpdateDurations 30 3
        (List.replicate 10 (⟨5, true⟩ : SendRecord) ++ [(⟨7, false⟩ : SendRecord)])).2).length =
      (List.replicate 10 (⟨5, true⟩ : SendRecord) ++ [(⟨7, false⟩ : SendRecord)]).length -
        (if didLastSendRequestFail
            (List.replicate 10 (⟨5, true⟩ : SendRecord) ++ [(⟨7, false⟩ : SendRecord)]) = true
          then 0 else 1) :=
  c3_amended 30 3 (List.replicate 10 (⟨5, true⟩ : SendRecord) ++ [(⟨7, false⟩ : SendRecord)])
    (by decide)

/-- C2 counterexample: the claim's lower bound fails for runs in which a fast
success lowered the delay below `MIN_DELAY` before the failures.  A send
completing in 0 ms while another connection is active makes the pacing call
set `delay = (0 / 3) | 0 = 0`; after the next send fails (one consecutive
failure, `k = 1`), the recomputed pacing delay is `min(60000, 0 * 2) = 0`,
strictly below the claimed bound `min(60000, 30 * 2 ^ 0) = 30`, so the retry
dispatch is not delayed at all. -/
theorem c2_counterexample :
    (computeDelayAndUpdateDurations 30 3 [⟨0, true⟩]).1 = 0 ∧
    (computeDelayAndUpdateDurations 0 3 [⟨0, true⟩, ⟨17, false⟩]).1 = 0 ∧
    delayAfterFailures 0 1 = 0 ∧
    0 < min MAX_DELAY (MIN_DELAY * 2 ^ (1 - 1)) := by decide

/-- C2 amended: after `k ≥ 1` consecutive failures the pacing delay is the
`k`-fold capped doubling `delayAfterFailures d k = min(60000, d * 2 ^ k)` of
the delay `d` in force before the first failure; whenever `d ≥ MIN_DELAY`
(as at startup and after every recovery) this is at least the claimed bound
`min(60_000, 30 * 2 ^ (k - 1))` — in particular three consecutive failures
from a fresh loop give pacing delays 60, 120 and 240 ms, all above the
claimed 30, 60 and 120 ms.  The bound can only be undercut when a fast
success has already driven the delay below 30 ms. -/
theorem c2_amended (d k : Nat) (hd : MIN_DELAY ≤ d) (hk : 1 ≤ k) :
    min MAX_DELAY (MIN_DELAY * 2 ^ (k - 1)) ≤ delayAfterFailures d k := by
  rw [delayAfterFailures_eq d k hk]
  obtain ⟨j, rfl⟩ : ∃ j, k = j + 1 := ⟨k - 1, by omega⟩
  simp only [Nat.add_sub_cancel]
  have hstep : MIN_DELAY * 2 ^ j ≤ d * 2 ^ (j + 1) := by
    have h2d : MIN_DELAY ≤ 2 * d := by
      simp only [MIN_DELAY] at hd ⊢
      omega
    calc MIN_DELAY * 2 ^ j ≤ 2 * d * 2 ^ j :=
          Nat.mul_le_mul_right (2 ^ j) h2d
      _ = d * 2 ^ (j + 1) := by ring
  exact min_le_min (le_refl MAX_DELAY) hstep

/-- Witness for C2's amended bound: three failures from the initial delay. -/
theorem c2_amended_witness :
    min MAX_DELAY (MIN_DELAY * 2 ^ (3 - 1)) ≤ delayAfterFailures 30 3 :=
  c2_amended 30 3 (by decide) (by decide)

/-- C4 counterexample: the claim says `close()` resolves all internal waits.
It does not — `close()` is exactly `this._closed = true`.  At a state whose
pending resolver is unresolved, whose recover resolver is unresolved and
which has a registered available-connection waiter, calling close leaves all
three exactly as they were: no wait is resolved. -/
theorem c4_counterexample :
    (closeLoop ⟨false, false, false, true, [], 30, 0, 3⟩).closed = true ∧
    (closeLoop ⟨false, false, false, true, [], 30, 0, 3⟩).pendingResolved
      = false ∧
    (closeLoop ⟨false, false, false, true, [], 30, 0, 3⟩).recoverResolved
      = false ∧
    (closeLoop ⟨false, false, false, true, [], 30, 0, 3⟩).waitingConnection
      = true := by decide

/-- C4 amended: `close()` sets the closed flag and nothing else — it resolves
none of the internal waits (the loop instead exits at the closed-flag check
that follows whatever wake-up happens next); and an `invokeSend` in flight at
close time runs to completion but its outcome is discarded: the completion
handler on a closed loop is the identity, so nothing is recorded. -/
theorem c4_amended (s : LoopState) (rec : SendRecord) :
    (closeLoop s).closed = true ∧
    (closeLoop s).pendingResolved = s.pendingResolved ∧
    (closeLoop s).recoverResolved = s.recoverResolved ∧
    (closeLoop s).waitingConnection = s.waitingConnection ∧
    (closeLoop s).sendRecords = s.sendRecords ∧
    completeSend (closeLoop s) rec = closeLoop s := by
  obtain ⟨c, p, r, w, recs, dl, lst, cnt⟩ := s
  simp [closeLoop, completeSend]

/-- C7: the pacing block runs exactly when `counter > 0` or the last recorded
send attempt failed; when neither holds, the iteration dispatches at once —
no pacing sleep is entered, and the delay and record list are untouched. -/
theorem c7_pacing_guard (m : Nat) (s : LoopState) (now : Nat) :
    ((paceOrDispatch m s now).paced = true ↔
      (0 < s.counter ∨ didLastSendRequestFail s.sendRecords = true)) ∧
    (s.counter = 0 → didLastSendRequestFail s.sendRecords = false →
      (paceOrDispatch m s now).dispatched = true ∧
      (paceOrDispatch m s now).nextSleep = none ∧
      (paceOrDispatch m s now).state.delay = s.delay ∧
      (paceOrDispatch m s now).state.sendRecords = s.sendRecords ∧
      (paceOrDispatch m s now).pc = PC.pendingWait) := by
  constructor
  · by_cases h1 : 0 < s.counter <;>
      by_cases h2 : didLastSendRequestFail s.sendRecords = true <;>
      simp [paceOrDispatch, dispatchNow, h1, h2] <;>
      split_ifs <;> simp
  · intro h1 h2
    simp [paceOrDispatch, dispatchNow, h1, h2]

/-- Witness for C7: an idle loop (no active connection, clean history)
dispatches immediately with no pacing. -/
theorem c7_witness :
    (paceOrDispatch 3 ⟨false, false, false, false, [], 30, 0, 0⟩ 7).dispatched
      = true ∧
    (paceOrDispatch 3 ⟨false, false, false, false, [], 30, 0, 0⟩ 7).nextSleep
      = none ∧
    (paceOrDispatch 3 ⟨false, false, false, false, [], 30, 0, 0⟩ 7).state.delay
      = (⟨false, false, false, false, [], 30, 0, 0⟩ : LoopState).delay ∧
    (paceOrDispatch 3
        ⟨false, false, false, false, [], 30, 0, 0⟩ 7).state.sendRecords
      = (⟨false, false, false, false, [], 30, 0, 0⟩ : LoopState).sendRecords ∧
    (paceOrDispatch 3 ⟨false, false, false, false, [], 30, 0, 0⟩ 7).pc
      = PC.pendingWait :=
  (c7_pacing_guard 3 ⟨false, false, false, false, [], 30, 0, 0⟩ 7).2
    (by decide) (by decide)

/-- C8: on a live loop, waking from the pending state always enters the
debounce sleep of `debounceDelay` milliseconds; and a `send()` arriving
during the debounce sleep is absorbed — the iteration's behaviour from the
debounce wake-up onward is identical with or without it, because line 111
replaces the pending resolver with a fresh one after the debounce, so the
extra `send()` cannot trigger an additional dispatch cycle. -/
theorem c8_debounce_absorbs (db m now : Nat) (s : LoopState)
    (h : s.closed = false) :
    wake db m PC.pendingWait s now =
      { pc := PC.debounceWait, state := s, dispatched := false,
        paced := false, nextSleep := some db } ∧
    wake db m PC.debounceWait (sendSignal s) now =
      wake db m PC.debounceWait s now := by
  obtain ⟨c, p, r, w, recs, dl, lst, cnt⟩ := s
  simp only at h
  subst h
  exact ⟨rfl, rfl⟩

/-- Witness for C8 on a live loop with default debounce delay. -/
theorem c8_witness :
    wake DEBOUNCE_DELAY 3 PC.pendingWait
        ⟨false, true, false, false, [], 30, 0, 1⟩ 4 =
      { pc := PC.debounceWait,
        state := ⟨false, true, false, false, [], 30, 0, 1⟩,
        dispatched := false, paced := false,
        nextSleep := some DEBOUNCE_DELAY } ∧
    wake DEBOUNCE_DELAY 3 PC.debounceWait
        (sendSignal ⟨false, true, false, false, [], 30, 0, 1⟩) 4 =
      wake DEBOUNCE_DELAY 3 PC.debounceWait
        ⟨false, true, false, false, [], 30, 0, 1⟩ 4 :=
  c8_debounce_absorbs DEBOUNCE_DELAY 3 4
    ⟨false, true, false, false, [], 30, 0, 1⟩ rfl

/-- C10: once the closed flag is set, no sequence of further events — wake-ups
of any suspension point, `send()` calls, completions of in-flight sends, or
repeated `close()` calls — ever dispatches another `invokeSend`: every
suspension point's wake-up hits a closed-flag check and exits before
dispatch.  Moreover a `send()` on a closed loop still resolves the pending
resolver, and still dispatches nothing. -/
theorem c10_no_dispatch_after_close (db m : Nat) (w : World) (evs : List Ev)
    (h : w.st.closed = true) :
    dispatchCount db m w evs = 0 ∧
    (worldStep db m w Ev.sendCall).2 = false ∧
    ((worldStep db m w Ev.sendCall).1).st.pendingResolved = true := by
  refine ⟨?_, rfl, rfl⟩
  induction evs generalizing w with
  | nil => rfl
  | cons e es ih =>
    have hc := worldStep_closed db m w e h
    have hrest := ih (worldStep db m w e).1 hc.1
    simp [dispatchCount, hc.2, hrest]

/-- Witness for C10: a closed loop sitting at the pending wait ignores a
send, a wake, a completion and a second close without dispatching. -/
theorem c10_witness :
    dispatchCount 10 3 ⟨PC.pendingWait, ⟨true, false, false, false, [], 30, 0, 1⟩⟩
        [Ev.sendCall, Ev.wakeLoop 5, Ev.complete ⟨3, false⟩, Ev.closeCall,
          Ev.wakeLoop 9] = 0 ∧
    (worldStep 10 3
        ⟨PC.pendingWait, ⟨true, false, false, false, [], 30, 0, 1⟩⟩
        Ev.sendCall).2 = false ∧
    ((worldStep 10 3
        ⟨PC.pendingWait, ⟨true, false, false, false, [], 30, 0, 1⟩⟩
        Ev.sendCall).1).st.pendingResolved = true :=
  c10_no_dispatch_after_close 10 3
    ⟨PC.pendingWait, ⟨true, false, false, false, [], 30, 0, 1⟩⟩
    [Ev.sendCall, Ev.wakeLoop 5, Ev.complete ⟨3, false⟩, Ev.closeCall,
      Ev.wakeLoop 9] rfl
